import Mathlib

/-
Verification development for the nl_to_sql_agent workflow engine.

The definitions below are a shallow embedding of the repository's Python
code: the LangGraph node functions in `src/agents/nodes.py`, the graph
wiring and conditional-edge selectors in `src/core/agent.py`, the SQL tool
in `src/tools/sql_tools.py`, the analysis tools in
`src/tools/analysis_tools.py`, and the API endpoint in `src/app/api.py`.

Python `None`/missing keys are modelled with `Option`; Python truthiness
on strings and lists is made explicit (`truthyStr`, `truthyRows`).
External collaborators (the database driver, the language model) are
modelled as oracles passed in as arguments, so that each node function is
a pure function of the state and of the collaborator's answer.
-/

/-- A result row, as produced by the database cursor: a mapping from
column names to (stringified) values. -/
abbrev Row := List (String × String)

/-- The mapping returned by `execute_sql_query` in `src/tools/sql_tools.py`:
it always has exactly the two keys `query_result` and `sql_error`. -/
structure SqlToolResult where
  query_result : Option (List Row)
  sql_error : Option String
deriving DecidableEq

/-- Outcome of handing a query string to the database driver
(`psycopg` via `get_db_connection`), as observed by `execute_sql_query`:
either a cursor with rows, a cursor with `description is None`
(no result set), a raised `psycopg.Error`, or any other raised exception. -/
inductive DbOutcome where
  | rows (rs : List Row)
  | noDescription
  | psycopgError (msg : String)
  | otherError (msg : String)
deriving DecidableEq

/-- Python truthiness of an optional string (`None` and `""` are falsy). -/
def truthyStr : Option String → Bool
  | none => false
  | some s => !(s == "")

/-- Python truthiness of an optional row list (`None` and `[]` are falsy). -/
def truthyRows : Option (List Row) → Bool
  | none => false
  | some rs => !rs.isEmpty

/-- ASCII whitespace, as stripped by Python `str.strip()`. -/
def isSpaceChar (c : Char) : Bool :=
  c == ' ' || c == '\t' || c == '\n' || c == '\r' || c == '\x0b' || c == '\x0c'

/-- Python `str.strip()`: remove leading and trailing whitespace. -/
def pyStrip (s : String) : String :=
  String.mk (((s.toList.dropWhile isSpaceChar).reverse.dropWhile
    isSpaceChar).reverse)

/-- Upper-case one ASCII character, as Python `str.upper()` does. -/
def pyUpperChar (c : Char) : Char :=
  if 'a' ≤ c && c ≤ 'z' then Char.ofNat (c.toNat - 32) else c

/-- Python `str.upper()` (on the ASCII range relevant to SQL keywords). -/
def pyUpper (s : String) : String :=
  String.mk (s.toList.map pyUpperChar)

/-- List prefix test used to embed Python `str.startswith`. -/
def listIsPrefixOf : List Char → List Char → Bool
  | [], _ => true
  | _ :: _, [] => false
  | b :: bs, a :: as => b == a && listIsPrefixOf bs as

/-- Python `s.startswith(pre)`. -/
def pyStartsWith (s pre : String) : Bool :=
  listIsPrefixOf pre.toList s.toList

/-- Splitting a character list at semicolons (used to embed Python
`str.split(";")`). -/
def splitSemiChars : List Char → List (List Char)
  | [] => [[]]
  | c :: cs =>
      let r := splitSemiChars cs
      if c == ';' then [] :: r
      else
        match r with
        | [] => [[c]]
        | h :: t => (c :: h) :: t

/-- Python `s.split(";")`. -/
def pySplitSemicolons (s : String) : List String :=
  (splitSemiChars s.toList).map String.mk

/-- The guard of `execute_sql_query` (src/tools/sql_tools.py line 72):
`sql_query.strip().upper().startswith("SELECT")`. -/
def sqlGuardPasses (s : String) : Bool :=
  pyStartsWith (pyUpper (pyStrip s)) "SELECT"

/-- `execute_sql_query` from `src/tools/sql_tools.py`.  The input is
`Option String` because the node may pass `None` (`isinstance` check fails);
`db` is the database oracle consulted only when the guard passes. -/
def execute_sql_query (sql_query : Option String) (db : String → DbOutcome) :
    SqlToolResult :=
  match sql_query with
  | none => ⟨none, some "Invalid or empty SQL query provided."⟩
  | some s =>
    if pyStrip s == "" then
      ⟨none, some "Invalid or empty SQL query provided."⟩
    else if !(sqlGuardPasses s) then
      ⟨none, some "Security Error: Only SELECT queries are allowed."⟩
    else
      match db s with
      | DbOutcome.rows rs => ⟨some rs, none⟩
      | DbOutcome.noDescription => ⟨some [], none⟩
      | DbOutcome.psycopgError m => ⟨none, some m⟩
      | DbOutcome.otherError m => ⟨none, some m⟩

/-- Whether `execute_sql_query` reaches the `get_db_connection` block for a
given input, i.e. whether a database call is made. -/
def reachesDatabase : Option String → Bool
  | none => false
  | some s => !(pyStrip s == "") && sqlGuardPasses s

/-- Formalisation of the SPEC's words (not of the code) for claim C6:
a statement is a write statement when its stripped upper-cased form starts
with a data- or schema-modifying keyword ("a disallowed write-type query",
spec section 7; "anything that is not a read-only query", spec section 6). -/
def spec_isWriteStatement (stmt : String) : Bool :=
  ["INSERT", "UPDATE", "DELETE", "DROP", "ALTER", "TRUNCATE", "CREATE",
    "GRANT", "REVOKE"].any (fun k => pyStartsWith (pyUpper (pyStrip stmt)) k)

/-- Formalisation of the SPEC's words (not of the code) for claim C6:
a query string is read-only when none of its semicolon-separated
statements is a write statement. -/
def spec_readOnlyQuery (q : String) : Bool :=
  (pySplitSemicolons q).all (fun st => !(spec_isWriteStatement st))

/-- One chart of a visualization plan (`ChartComponent` in
`src/tools/analysis_tools.py`). -/
structure ChartComponent where
  chart_type : String
  title : String
  x_axis : Option String
  y_axis : Option String
  z_axis : Option String
  value_column : Option String
  explanation : String
deriving DecidableEq

/-- A validated visualization plan (`VisualizationPlan` in
`src/tools/analysis_tools.py`). -/
structure VisualizationPlan where
  charts : List ChartComponent
deriving DecidableEq

/-- The State Record threaded through the graph (`AgentState`; fields as
read and written by the nodes in `src/agents/nodes.py` and described in
spec section 3).  Chat history entries are (role, content) pairs. -/
structure AgentState where
  question : String
  chat_history : List (String × String)
  user_id : Option String
  next_node : Option String
  retrieved_schema : Option String
  few_shot_examples : Option String
  long_term_memory : Option String
  generated_sql : Option String
  query_result : Option (List Row)
  sql_error : Option String
  summary : Option String
  visualization_plan : Option VisualizationPlan
  plotly_figure_json : List String
  facts_to_save : Option (List String)
deriving DecidableEq

/-- Conditional edge after `query_execution`
(`should_continue_to_summarization`, src/core/agent.py line 40):
`return "self_correction" if state.get("sql_error") else "summarization"`. -/
def should_continue_to_summarization (s : AgentState) : String :=
  if truthyStr s.sql_error then "self_correction" else "summarization"

/-- Conditional edge after `summarization`
(`should_continue_to_visualization`, src/core/agent.py line 44):
`return "plan_visualization" if state.get("query_result") else "curate_memory"`. -/
def should_continue_to_visualization (s : AgentState) : String :=
  if truthyRows s.query_result then "plan_visualization" else "curate_memory"

/-- The structured response the router's language-model call produced, as
seen by `router_node` (src/agents/nodes.py lines 44-46): the raw text is
either unparsable by `json.loads`, or parses to an object in which the
key `"route"` is present with a string value or absent. -/
inductive RouterResponse where
  | unparsable
  | parsed (route : Option String)
deriving DecidableEq

/-- The routing decision of `router_node`: `some v` means the node returns
the update `{"next_node": v}`; `none` means `json.loads` raised an
exception that propagates out of the node (there is no try/except in
`router_node`), aborting the turn. -/
def router_node : RouterResponse → Option String
  | RouterResponse.unparsable => none
  | RouterResponse.parsed none => some "general_conversation"
  | RouterResponse.parsed (some r) => some r

/-- The conditional-edge mapping registered on `"router"` in
`create_agent_graph` (src/core/agent.py lines 74-78): the selector is
`lambda s: s["next_node"]` and the path map sends
`"general_conversation"` to `"direct_response"` and `"sql_query"` to
`"load_memory"`.  A label outside the map has no target (`none`): the
graph library raises at run time, so the turn crashes. -/
def routerPathMap (label : String) : Option String :=
  if label == "general_conversation" then some "direct_response"
  else if label == "sql_query" then some "load_memory"
  else none

/-- The outcome of the memory-curation language-model call, as seen by
`curate_memory_node` (src/agents/nodes.py lines 199-213): the call itself
may raise, the response may be empty (falsy), the text may be unparsable
JSON, or it parses to an object whose `"facts_to_save"` key is present or
absent. -/
inductive CurationResponse where
  | llmError
  | emptyResponse
  | unparsable
  | parsed (facts : Option (List String))
deriving DecidableEq

/-- `curate_memory_node` from `src/agents/nodes.py`: returns the
`facts_to_save` value of its partial update.  An empty chat history
short-circuits to `[]`; the whole body is wrapped in try/except that
returns `[]` on any exception; a parsed object without the key defaults
to `[]` via `.get("facts_to_save", [])`.  The node never raises. -/
def curate_memory_node (chat_history : List (String × String))
    (resp : CurationResponse) : List String :=
  if chat_history.isEmpty then []
  else
    match resp with
    | CurationResponse.llmError => []
    | CurationResponse.emptyResponse => []
    | CurationResponse.unparsable => []
    | CurationResponse.parsed none => []
    | CurationResponse.parsed (some facts) => facts

/-- The outcome of the visualization-planning language-model call, as seen
by `plan_visualizations` (src/tools/analysis_tools.py lines 114-130): the
call may raise, the response may be empty, the text may fail Pydantic
validation (which covers unparsable JSON and wrong structure), or it
validates to a plan. -/
inductive VizResponse where
  | llmError
  | emptyResponse
  | invalidStructure
  | valid (plan : VisualizationPlan)
deriving DecidableEq

/-- The mapping returned by `plan_visualizations`: a `plan` key and/or an
`error` key (`none` models an absent or null key). -/
structure VizPlanResult where
  plan : Option VisualizationPlan
  error : Option String
deriving DecidableEq

/-- `plan_visualizations` from `src/tools/analysis_tools.py`.  With no
data it returns only an error; a validation failure or any exception is
caught and returned as `{"error": ..., "plan": None}`; success returns
`{"plan": ...}`.  The tool never raises. -/
def plan_visualizations (data : List Row) (resp : VizResponse) :
    VizPlanResult :=
  if data.isEmpty then
    ⟨none, some "No data available to create a visualization plan."⟩
  else
    match resp with
    | VizResponse.llmError =>
        ⟨none, some "An unexpected error occurred in plan_visualizations."⟩
    | VizResponse.emptyResponse =>
        ⟨none, some "LLM returned no response for visualization plan."⟩
    | VizResponse.invalidStructure =>
        ⟨none,
          some "LLM returned an invalid JSON structure for the visualization plan."⟩
    | VizResponse.valid p => ⟨some p, none⟩

/-- `summarization_node` from `src/agents/nodes.py` (lines 128-137) applied
to the state: its partial update sets only `summary`.  If `query_result`
is falsy (null or empty) the summary is the fixed no-data message and the
summarize tool is not called; otherwise the summary is the tool's answer,
modelled by the oracle `llmSummary`. -/
def summarization_node (s : AgentState) (llmSummary : String) : AgentState :=
  if truthyRows s.query_result then { s with summary := some llmSummary }
  else { s with summary := some "The query returned no data to summarize." }

/-- `query_execution_node` from `src/agents/nodes.py` (lines 93-108)
applied to the state: its partial update sets `query_result` and
`sql_error` from the tool result and rewrites `generated_sql` with the
same value it read. -/
def query_execution_node (s : AgentState) (res : SqlToolResult) : AgentState :=
  { s with query_result := res.query_result,
           sql_error := res.sql_error,
           generated_sql := s.generated_sql }

/-- `self_correction_node` from `src/agents/nodes.py` (lines 110-126)
applied to the state: its partial update sets `generated_sql` to the
corrected query produced by the language model (the oracle `newSql`) and
clears `sql_error` to null.  No other field is touched; in particular no
retry counter exists in the state. -/
def self_correction_node (s : AgentState) (newSql : String) : AgentState :=
  { s with generated_sql := some newSql, sql_error := none }

/-- The three graph nodes involved in the execution/correction cycle
(src/core/agent.py lines 88-95). -/
inductive SqlNode where
  | query_execution
  | self_correction
  | summarization
deriving DecidableEq

/-- A configuration of the execution/correction sub-machine: the node
about to run (or `summarization` once reached, which is absorbing here),
the number of completed `query_execution` runs, the number of completed
`self_correction` runs, and the State Record. -/
structure LoopState where
  node : SqlNode
  execs : Nat
  corrs : Nat
  state : AgentState
deriving DecidableEq

/-- One step of the execution/correction sub-machine, as wired in
`create_agent_graph` (src/core/agent.py lines 88-95): after
`query_execution`, the conditional edge `should_continue_to_summarization`
picks `self_correction` or `summarization`; after `self_correction`, an
unconditional edge returns to `query_execution`.  `attempts k` is the
tool result of the (k+1)-st execution; `fixes k` is the language model's
(k+1)-st corrected query. -/
def sqlLoopStep (attempts : Nat → SqlToolResult) (fixes : Nat → String) :
    LoopState → LoopState
  | ⟨SqlNode.query_execution, e, c, st⟩ =>
      let st2 := query_execution_node st (attempts e)
      if should_continue_to_summarization st2 == "self_correction" then
        ⟨SqlNode.self_correction, e + 1, c, st2⟩
      else
        ⟨SqlNode.summarization, e + 1, c, st2⟩
  | ⟨SqlNode.self_correction, e, c, st⟩ =>
      ⟨SqlNode.query_execution, e, c + 1, self_correction_node st (fixes c)⟩
  | ⟨SqlNode.summarization, e, c, st⟩ => ⟨SqlNode.summarization, e, c, st⟩

/-- `n` steps of the execution/correction sub-machine. -/
def sqlLoopRun (attempts : Nat → SqlToolResult) (fixes : Nat → String)
    (n : Nat) (ls : LoopState) : LoopState :=
  match n with
  | 0 => ls
  | n + 1 => sqlLoopRun attempts fixes n (sqlLoopStep attempts fixes ls)

/-- A chat message of the OpenAI-compatible request body (`ChatMessage` in
`src/app/api.py`). -/
structure ApiChatMessage where
  role : String
  content : String
deriving DecidableEq

/-- The request body of `/v1/chat/completions` (`ChatRequest` in
`src/app/api.py`): a model name, the full message history of the
conversation, and a stream flag.  There is no conversation-id field. -/
structure ApiChatRequest where
  model : String
  messages : List ApiChatMessage
  stream : Bool
deriving DecidableEq

/-- The thread identifier chosen by `chat_completions`
(src/app/api.py line 126): `thread_id = str(uuid.uuid4())`.  The fresh
uuid drawn for the request is the oracle `freshUuid`; the request itself
is not consulted. -/
def chooseThreadId (_req : ApiChatRequest) (freshUuid : String) : String :=
  freshUuid

/-- The user id chosen by `chat_completions` (src/app/api.py line 125):
the constant `"open-webui-user"`. -/
def apiUserId (_req : ApiChatRequest) : String :=
  "open-webui-user"

/-- The last user message of the request
(src/app/api.py line 121): the content of the last message whose role is
`"user"`, if any. -/
def lastUserMessage (req : ApiChatRequest) : Option String :=
  (req.messages.reverse.find? (fun m => m.role == "user")).map
    (fun m => m.content)

/-- The initial agent input built by `chat_completions`
(src/app/api.py lines 130-133): the question is the last user message,
the chat history is the request's full message list converted to
(role, content) pairs, the user id is the fixed one, and `user_response`
is hardcoded to `"approve"`. -/
structure AgentInput where
  question : String
  chat_history : List (String × String)
  user_id : String
  user_response : String
deriving DecidableEq

/-- Builds the agent input from a request whose last user message is
`q` (the endpoint rejects requests without one before this point). -/
def buildAgentInput (req : ApiChatRequest) (q : String) : AgentInput :=
  { question := q,
    chat_history := req.messages.map (fun m => (m.role, m.content)),
    user_id := apiUserId req,
    user_response := "approve" }

/-- A partial update as returned by a node: `none` on a field means the
key is absent from the returned mapping, so the merge leaves the running
State Record's field unchanged (spec section 4.2, shallow key
replacement). -/
structure StateUpdate where
  question : Option String
  chat_history : Option (List (String × String))
  user_id : Option (Option String)
  next_node : Option (Option String)
  retrieved_schema : Option (Option String)
  few_shot_examples : Option (Option String)
  long_term_memory : Option (Option String)
  generated_sql : Option (Option String)
  query_result : Option (Option (List Row))
  sql_error : Option (Option String)
  summary : Option (Option String)
  visualization_plan : Option (Option VisualizationPlan)
  plotly_figure_json : Option (List String)
  facts_to_save : Option (Option (List String))
deriving DecidableEq

/-- The empty partial update `{}`: no key present. -/
def emptyUpdate : StateUpdate :=
  ⟨none, none, none, none, none, none, none, none, none, none, none, none,
    none, none⟩

/-- Shallow merge of a partial update into the State Record: present keys
overwrite, absent keys leave the record untouched. -/
def applyUpdate (s : AgentState) (u : StateUpdate) : AgentState :=
  { question := u.question.getD s.question,
    chat_history := u.chat_history.getD s.chat_history,
    user_id := u.user_id.getD s.user_id,
    next_node := u.next_node.getD s.next_node,
    retrieved_schema := u.retrieved_schema.getD s.retrieved_schema,
    few_shot_examples := u.few_shot_examples.getD s.few_shot_examples,
    long_term_memory := u.long_term_memory.getD s.long_term_memory,
    generated_sql := u.generated_sql.getD s.generated_sql,
    query_result := u.query_result.getD s.query_result,
    sql_error := u.sql_error.getD s.sql_error,
    summary := u.summary.getD s.summary,
    visualization_plan := u.visualization_plan.getD s.visualization_plan,
    plotly_figure_json := u.plotly_figure_json.getD s.plotly_figure_json,
    facts_to_save := u.facts_to_save.getD s.facts_to_save }

/-- `save_memory_node` from `src/agents/nodes.py` (lines 215-227): the
first component is the partial update returned to the graph (it is `{}`
on every branch); the second component is the list of external
vector-store writes (user id, fact) performed, empty when `user_id` or
`facts_to_save` is falsy. -/
def save_memory_node (s : AgentState) : StateUpdate × List (String × String) :=
  if truthyStr s.user_id then
    match s.facts_to_save with
    | none => (emptyUpdate, [])
    | some facts =>
        if facts.isEmpty then (emptyUpdate, [])
        else (emptyUpdate, facts.map (fun f => (s.user_id.getD "", f)))
  else (emptyUpdate, [])

/-- Initial configuration of the execution/correction sub-machine: about
to run `query_execution` for the first time (the unconditional edge from
`query_generation`, src/core/agent.py line 86). -/
def initLoopState (s : AgentState) : LoopState :=
  ⟨SqlNode.query_execution, 0, 0, s⟩

/-- A concrete State Record used by witnesses and counterexamples. -/
def baseState : AgentState :=
  { question := "What were total sales last month",
    chat_history := [("human", "What were total sales last month")],
    user_id := some "open-webui-user",
    next_node := some "sql_query",
    retrieved_schema := some "sales(total_revenue numeric, sale_date date)",
    few_shot_examples := some "none",
    long_term_memory := some "none",
    generated_sql := some "SELECT SUM(total_revenue) FROM sales",
    query_result := none,
    sql_error := none,
    summary := none,
    visualization_plan := none,
    plotly_figure_json := [],
    facts_to_save := none }

/-- Attempt oracle: the first execution fails with an empty error string
(`str(e)` of an exception with no message), the second succeeds. -/
def attemptsEmptyErr : Nat → SqlToolResult :=
  fun n => if n == 0 then ⟨none, some ""⟩
    else ⟨some [[("sum", "12345")]], none⟩

/-- Attempt oracle: every execution fails with an empty error string. -/
def attemptsAllEmptyErr : Nat → SqlToolResult :=
  fun _ => ⟨none, some ""⟩

/-- Attempt oracle: every execution fails with a database error. -/
def attemptsAllFail : Nat → SqlToolResult :=
  fun _ => ⟨none, some "Database Execution Error: relation missing"⟩

/-- Attempt oracle: the first execution fails with a database error, the
second succeeds with one row. -/
def attemptsSecondOk : Nat → SqlToolResult :=
  fun n => if n == 0 then ⟨none, some "column total does not exist"⟩
    else ⟨some [[("sum", "12345")]], none⟩

/-- Correction oracle: the language model always proposes this query. -/
def fixesConst : Nat → String :=
  fun _ => "SELECT SUM(total_revenue) FROM sales"

/-- A multi-statement query string: it starts with SELECT, so the guard
of `execute_sql_query` passes, yet its second statement is a write. -/
def multiStatementWrite : String := "SELECT 1; DROP TABLE users"

/-- A concrete API request used by witnesses and counterexamples: three
messages of one conversation, the last from the user. -/
def sampleRequest : ApiChatRequest :=
  { model := "datanexus-agent",
    messages := [⟨"user", "hello"⟩, ⟨"assistant", "hi, how can I help"⟩,
      ⟨"user", "What were total sales last month"⟩],
    stream := true }

/-- Running `a + b` steps is running `a` steps and then `b` steps. -/
theorem sqlLoopRun_add (attempts : Nat → SqlToolResult) (fixes : Nat → String)
    (a b : Nat) (ls : LoopState) :
    sqlLoopRun attempts fixes (a + b) ls
      = sqlLoopRun attempts fixes b (sqlLoopRun attempts fixes a ls) := by
  induction a generalizing ls with
  | zero => rw [Nat.zero_add]; rfl
  | succ n ih =>
      have h : n + 1 + b = (n + b) + 1 := by omega
      rw [h]
      show sqlLoopRun attempts fixes (n + b) (sqlLoopStep attempts fixes ls) = _
      rw [ih]
      rfl

/-- When the state's `sql_error` is truthy the post-execution selector
picks `self_correction`. -/
theorem selector_truthy (s : AgentState) (h : truthyStr s.sql_error = true) :
    should_continue_to_summarization s = "self_correction" := by
  simp [should_continue_to_summarization, h]

/-- When the state's `sql_error` is falsy the post-execution selector
picks `summarization`. -/
theorem selector_falsy (s : AgentState) (h : truthyStr s.sql_error = false) :
    should_continue_to_summarization s = "summarization" := by
  simp [should_continue_to_summarization, h]

/-- After `k` failing attempts (truthy errors), `2 * k` steps land back on
`query_execution` with both counters equal to `k`. -/
theorem sqlLoop_qe_after_failures (attempts : Nat → SqlToolResult)
    (fixes : Nat → String) (s0 : AgentState) (k : Nat)
    (h : ∀ i, i < k → truthyStr (attempts i).sql_error = true) :
    ∃ st : AgentState,
      sqlLoopRun attempts fixes (2 * k) (initLoopState s0)
        = ⟨SqlNode.query_execution, k, k, st⟩ := by
  induction k with
  | zero => exact ⟨s0, rfl⟩
  | succ n ih =>
      obtain ⟨st, hst⟩ := ih (fun i hi => h i (by omega))
      have h2 : 2 * (n + 1) = 2 * n + 2 := by ring
      rw [h2, sqlLoopRun_add attempts fixes (2 * n) 2, hst]
      refine ⟨self_correction_node (query_execution_node st (attempts n))
        (fixes n), ?_⟩
      have htr : truthyStr (query_execution_node st (attempts n)).sql_error
          = true := h n (by omega)
      have e1 : sqlLoopStep attempts fixes ⟨SqlNode.query_execution, n, n, st⟩
          = ⟨SqlNode.self_correction, n + 1, n,
              query_execution_node st (attempts n)⟩ := by
        simp [sqlLoopStep, selector_truthy _ htr]
      have e0 : sqlLoopRun attempts fixes 2 ⟨SqlNode.query_execution, n, n, st⟩
          = sqlLoopStep attempts fixes (sqlLoopStep attempts fixes
              ⟨SqlNode.query_execution, n, n, st⟩) := rfl
      rw [e0, e1]
      rfl

/-- As long as every attempt tried so far carries a truthy error, the
sub-machine is still at `query_execution` or `self_correction`. -/
theorem sqlLoop_stays_in_cycle (attempts : Nat → SqlToolResult)
    (fixes : Nat → String) (s0 : AgentState) (m K : Nat)
    (hm : m < 2 * K + 1)
    (hfail : ∀ i, i < K → truthyStr (attempts i).sql_error = true) :
    (sqlLoopRun attempts fixes m (initLoopState s0)).node
      ≠ SqlNode.summarization := by
  rcases Nat.even_or_odd m with ⟨j, hj⟩ | ⟨j, hj⟩
  · have hjK : j ≤ K := by omega
    obtain ⟨stj, hstj⟩ := sqlLoop_qe_after_failures attempts fixes s0 j
      (fun i hi => hfail i (by omega))
    have hm2 : m = 2 * j := by omega
    rw [hm2, hstj]
    simp
  · have hjK : j < K := by omega
    obtain ⟨stj, hstj⟩ := sqlLoop_qe_after_failures attempts fixes s0 j
      (fun i hi => hfail i (by omega))
    have htr : truthyStr (query_execution_node stj (attempts j)).sql_error
        = true := hfail j hjK
    have hm2 : m = 2 * j + 1 := by omega
    rw [hm2, sqlLoopRun_add attempts fixes (2 * j) 1, hstj]
    have e1 : sqlLoopRun attempts fixes 1 ⟨SqlNode.query_execution, j, j, stj⟩
        = sqlLoopStep attempts fixes ⟨SqlNode.query_execution, j, j, stj⟩ :=
      rfl
    rw [e1]
    simp [sqlLoopStep, selector_truthy _ htr]

/-- C2: for every state produced by `query_execution`, the conditional
edge selects `self_correction` exactly when `sql_error` is truthy and
`summarization` otherwise, and `sql_error` is the only state field the
selector consults: two states agreeing on `sql_error` are routed alike. -/
theorem post_execution_routing (s t : AgentState)
    (h : s.sql_error = t.sql_error) :
    (should_continue_to_summarization s = "self_correction" ↔
      truthyStr s.sql_error = true)
    ∧ (should_continue_to_summarization s = "summarization" ↔
      truthyStr s.sql_error = false)
    ∧ should_continue_to_summarization s
        = should_continue_to_summarization t := by
  have ht : truthyStr t.sql_error = truthyStr s.sql_error := by rw [h]
  cases hb : truthyStr s.sql_error <;>
    simp [should_continue_to_summarization, hb, ht]

/-- Witness for C2 at concrete states that differ everywhere except
`sql_error`. -/
theorem post_execution_routing_witness :
    should_continue_to_summarization { baseState with sql_error := some "e" }
      = "self_correction"
    ∧ should_continue_to_summarization { baseState with sql_error := some "e" }
      = should_continue_to_summarization
          { baseState with
              sql_error := some "e"
              question := "other"
              query_result := some [] } := by
  have h := post_execution_routing
    { baseState with sql_error := some "e" }
    { baseState with
        sql_error := some "e"
        question := "other"
        query_result := some [] } rfl
  exact ⟨h.1.mpr (by decide), h.2.2⟩

/-- C4: if `query_result` is null or empty at the summarization step, the
summary is set to the fixed no-data message and the conditional edge
after summarization routes to `curate_memory`, never to
`plan_visualization`. -/
theorem no_data_short_circuit (s : AgentState) (llm : String)
    (h : s.query_result = none ∨ s.query_result = some []) :
    (summarization_node s llm).summary
      = some "The query returned no data to summarize."
    ∧ should_continue_to_visualization (summarization_node s llm)
      = "curate_memory"
    ∧ should_continue_to_visualization (summarization_node s llm)
      ≠ "plan_visualization" := by
  have hf : truthyRows s.query_result = false := by
    rcases h with h | h <;> simp [truthyRows, h]
  have hs : summarization_node s llm
      = { s with summary := some "The query returned no data to summarize." } := by
    simp [summarization_node, hf]
  rw [hs]
  refine ⟨rfl, ?_, ?_⟩ <;>
    simp [should_continue_to_visualization, truthyRows] <;>
    cases hq : s.query_result <;> simp_all [truthyRows]

/-- Witness for C4 at a concrete state with an empty result set. -/
theorem no_data_short_circuit_witness :
    (summarization_node { baseState with query_result := some [] }
        "ignored").summary
      = some "The query returned no data to summarize."
    ∧ should_continue_to_visualization
        (summarization_node { baseState with query_result := some [] }
          "ignored")
      = "curate_memory" := by
  have h := no_data_short_circuit { baseState with query_result := some [] }
    "ignored" (Or.inr rfl)
  exact ⟨h.1, h.2.1⟩

/-- C9: `execute_sql_query` is total and always returns a result in which
`query_result` is null exactly when `sql_error` is a non-null string:
error paths carry no rows, success paths carry a (possibly empty) row
list and a null error. -/
theorem execute_sql_query_invariant (q : Option String)
    (db : String → DbOutcome) :
    ((execute_sql_query q db).query_result).isNone
      = ((execute_sql_query q db).sql_error).isSome := by
  cases q with
  | none => rfl
  | some s =>
      by_cases h1 : (pyStrip s == "") = true
      · simp [execute_sql_query, h1]
      · by_cases h2 : sqlGuardPasses s = true
        · cases hdb : db s <;> simp [execute_sql_query, h1, h2, hdb]
        · simp [execute_sql_query, h1, h2]

/-- C10: `save_memory_node` returns the empty partial update on every
input, so merging its update leaves the State Record unchanged; its only
effects are the external vector-store writes. -/
theorem save_memory_empty_update (s : AgentState) :
    (save_memory_node s).1 = emptyUpdate
    ∧ applyUpdate s (save_memory_node s).1 = s := by
  have h1 : (save_memory_node s).1 = emptyUpdate := by
    unfold save_memory_node
    by_cases h : truthyStr s.user_id = true
    · cases hf : s.facts_to_save with
      | none => simp [h, hf]
      | some facts =>
          by_cases he : facts.isEmpty = true <;> simp [h, hf, he]
    · simp [h]
  refine ⟨h1, ?_⟩
  rw [h1]
  cases s
  rfl

/-- C5 counterexample: the unrecognized label "weather_report" is passed
through by the router node unchanged and matches no edge of the router's
path map, so it is not routed to the default path `direct_response` —
the graph library raises instead. -/
theorem router_fail_closed_counterexample :
    router_node (RouterResponse.parsed (some "weather_report"))
      = some "weather_report"
    ∧ routerPathMap "weather_report" = none
    ∧ routerPathMap "weather_report" ≠ some "direct_response" := by
  refine ⟨rfl, by decide, by decide⟩

/-- C5 amended: the general-conversation default applies only when the
route key is missing from the parsed router output; a present but
unrecognized label is stored verbatim in `next_node` and has no target in
the conditional-edge mapping, so the turn errors instead of falling back
to `direct_response`. -/
theorem router_default_only_for_missing_key (label : String)
    (h1 : label ≠ "general_conversation") (h2 : label ≠ "sql_query") :
    router_node (RouterResponse.parsed (some label)) = some label
    ∧ routerPathMap label = none
    ∧ router_node (RouterResponse.parsed none)
        = some "general_conversation"
    ∧ routerPathMap "general_conversation" = some "direct_response" := by
  refine ⟨rfl, ?_, rfl, by decide⟩
  simp [routerPathMap, h1, h2]

/-- Witness for the amended C5 at the concrete label "sales_chart". -/
theorem router_default_only_for_missing_key_witness :
    router_node (RouterResponse.parsed (some "sales_chart"))
      = some "sales_chart"
    ∧ routerPathMap "sales_chart" = none
    ∧ router_node (RouterResponse.parsed none)
        = some "general_conversation" := by
  have h := router_default_only_for_missing_key "sales_chart"
    (by decide) (by decide)
  exact ⟨h.1, h.2.1, h.2.2.1⟩

/-- C6 counterexample: "SELECT 1; DROP TABLE users" is not a read-only
query (its second statement is a write) yet the guard of
`execute_sql_query` passes, the database is called, and with a database
that answers the result is a success — no security error is returned. -/
theorem write_query_reaches_database_counterexample :
    spec_readOnlyQuery multiStatementWrite = false
    ∧ reachesDatabase (some multiStatementWrite) = true
    ∧ execute_sql_query (some multiStatementWrite)
        (fun _ => DbOutcome.noDescription)
      = ⟨some [], none⟩ := by
  refine ⟨by decide, by decide, by decide⟩

/-- C6 amended: `execute_sql_query` rejects, without any database call
and with a null `query_result`, every input whose stripped upper-cased
form does not start with SELECT — with the security-error message for a
non-empty string, the invalid-query message for an empty or missing one —
and the result does not depend on the database; only strings passing the
SELECT-prefix check reach the database, so the check does not block a
multi-statement string that starts with SELECT but contains a write. -/
theorem non_select_rejected_before_database (s : String)
    (db db2 : String → DbOutcome) (h : sqlGuardPasses s = false) :
    reachesDatabase (some s) = false
    ∧ (execute_sql_query (some s) db).query_result = none
    ∧ (execute_sql_query (some s) db).sql_error
        = some (if pyStrip s == "" then "Invalid or empty SQL query provided."
            else "Security Error: Only SELECT queries are allowed.")
    ∧ execute_sql_query (some s) db = execute_sql_query (some s) db2
    ∧ execute_sql_query none db
        = ⟨none, some "Invalid or empty SQL query provided."⟩ := by
  by_cases h1 : (pyStrip s == "") = true <;>
    simp [execute_sql_query, reachesDatabase, h, h1]

/-- Witness for the amended C6 at the concrete write query
"DROP TABLE users". -/
theorem non_select_rejected_before_database_witness :
    reachesDatabase (some "DROP TABLE users") = false
    ∧ (execute_sql_query (some "DROP TABLE users")
        (fun _ => DbOutcome.noDescription)).sql_error
      = some "Security Error: Only SELECT queries are allowed." := by
  have h := non_select_rejected_before_database "DROP TABLE users"
    (fun _ => DbOutcome.noDescription) (fun _ => DbOutcome.rows [])
    (by decide)
  exact ⟨h.1, by rw [h.2.2.1]; decide⟩

/-- C7 counterexample: an unparsable router response is not converted to
a degraded default — `router_node` has no handler, the `json.loads`
exception propagates and the node produces no partial update at all. -/
theorem malformed_router_output_counterexample :
    router_node RouterResponse.unparsable = none := rfl

/-- C7 amended: memory curation and visualization planning catch
malformed or missing structured output and degrade (empty fact list;
null plan with an error message) without raising, and the router
substitutes the default route for a missing route key; but an unparsable
router response raises out of the router node and aborts the turn. -/
theorem malformed_output_degrades_curation_and_viz
    (hist : List (String × String)) (data : List Row) :
    curate_memory_node hist CurationResponse.unparsable = []
    ∧ curate_memory_node hist CurationResponse.llmError = []
    ∧ curate_memory_node hist CurationResponse.emptyResponse = []
    ∧ (plan_visualizations data VizResponse.invalidStructure).plan = none
    ∧ (plan_visualizations data VizResponse.invalidStructure).error ≠ none
    ∧ (plan_visualizations data VizResponse.emptyResponse).plan = none
    ∧ router_node (RouterResponse.parsed none)
        = some "general_conversation"
    ∧ router_node RouterResponse.unparsable = none := by
  refine ⟨?_, ?_, ?_, ?_, ?_, ?_, rfl, rfl⟩ <;>
    cases hd : data.isEmpty <;> cases hh : hist.isEmpty <;>
      simp [curate_memory_node, plan_visualizations, hd, hh]

/-- C8 counterexample: two requests of the same conversation (identical
request bodies) are invoked under different thread identifiers, because
`chat_completions` draws a fresh uuid for every request. -/
theorem thread_id_not_conversation_keyed_counterexample :
    chooseThreadId sampleRequest "11111111-1111-1111-1111-111111111111"
      ≠ chooseThreadId sampleRequest "22222222-2222-2222-2222-222222222222" := by
  decide

/-- C8 amended: the thread identifier is the fresh uuid drawn for the
request — independent of the request body, distinct across requests with
distinct uuids — so every request starts a new checkpoint thread; the
conversation context is instead carried in the request's message list,
which becomes the agent input's `chat_history`, and the user id is the
fixed string "open-webui-user". -/
theorem thread_id_fresh_per_request (req req2 : ApiChatRequest)
    (u u2 : String) (h : u ≠ u2) :
    chooseThreadId req u = u
    ∧ chooseThreadId req u = chooseThreadId req2 u
    ∧ chooseThreadId req u ≠ chooseThreadId req2 u2
    ∧ (∀ q, (buildAgentInput req q).chat_history
        = req.messages.map (fun m => (m.role, m.content)))
    ∧ apiUserId req = "open-webui-user" := by
  exact ⟨rfl, rfl, h, fun q => rfl, rfl⟩

/-- Witness for the amended C8 at the concrete sample request and two
distinct uuids. -/
theorem thread_id_fresh_per_request_witness :
    chooseThreadId sampleRequest "aaaa-1111" = "aaaa-1111"
    ∧ chooseThreadId sampleRequest "aaaa-1111"
      ≠ chooseThreadId sampleRequest "bbbb-2222"
    ∧ apiUserId sampleRequest = "open-webui-user" := by
  have h := thread_id_fresh_per_request sampleRequest sampleRequest
    "aaaa-1111" "bbbb-2222" (by decide)
  exact ⟨h.1, h.2.2.1, h.2.2.2.2⟩

/-- C1 counterexample: when the first attempt's `sql_error` is the empty
string (non-null, e.g. `str(e)` of a bare exception) and the second
attempt is the first to carry a null `sql_error` (N = 2), the machine
enters summarization after a single execution — not two — and the state's
`sql_error` at entry is non-null. -/
theorem selfcorrection_convergence_null_counterexample :
    (attemptsEmptyErr 0).sql_error ≠ none
    ∧ (attemptsEmptyErr 1).sql_error = none
    ∧ (sqlLoopRun attemptsEmptyErr fixesConst 1 (initLoopState baseState)).node
      = SqlNode.summarization
    ∧ (sqlLoopRun attemptsEmptyErr fixesConst 1
        (initLoopState baseState)).execs = 1
    ∧ (sqlLoopRun attemptsEmptyErr fixesConst 1
        (initLoopState baseState)).state.sql_error ≠ none := by
  refine ⟨by decide, by decide, by decide, by decide, by decide⟩

/-- C1 (amended): if the Nth execution attempt is the first whose result
carries a falsy (null or empty) `sql_error`, the workflow reaches
summarization after exactly N executions of `query_execution` and N-1
executions of `self_correction`, with the state's `sql_error` at entry to
summarization equal to the Nth attempt's `sql_error` — hence falsy, and
null whenever that attempt's error is null — and summarization is not
reached at any earlier step. -/
theorem selfcorrection_convergence (attempts : Nat → SqlToolResult)
    (fixes : Nat → String) (s0 : AgentState) (N : Nat) (hN : 1 ≤ N)
    (hsucc : truthyStr (attempts (N - 1)).sql_error = false)
    (hfail : ∀ i, i < N - 1 → truthyStr (attempts i).sql_error = true) :
    (sqlLoopRun attempts fixes (2 * N - 1) (initLoopState s0)).node
      = SqlNode.summarization
    ∧ (sqlLoopRun attempts fixes (2 * N - 1) (initLoopState s0)).execs = N
    ∧ (sqlLoopRun attempts fixes (2 * N - 1) (initLoopState s0)).corrs
      = N - 1
    ∧ (sqlLoopRun attempts fixes (2 * N - 1)
        (initLoopState s0)).state.sql_error = (attempts (N - 1)).sql_error
    ∧ truthyStr (sqlLoopRun attempts fixes (2 * N - 1)
        (initLoopState s0)).state.sql_error = false
    ∧ ∀ m, m < 2 * N - 1 →
        (sqlLoopRun attempts fixes m (initLoopState s0)).node
          ≠ SqlNode.summarization := by
  obtain ⟨K, rfl⟩ : ∃ K, N = K + 1 := ⟨N - 1, by omega⟩
  have hK1 : K + 1 - 1 = K := by omega
  rw [hK1] at hsucc hfail
  have h21 : 2 * (K + 1) - 1 = 2 * K + 1 := by omega
  rw [h21, hK1]
  obtain ⟨st, hst⟩ := sqlLoop_qe_after_failures attempts fixes s0 K hfail
  have htr : truthyStr (query_execution_node st (attempts K)).sql_error
      = false := hsucc
  have hcond : (should_continue_to_summarization
      (query_execution_node st (attempts K)) == "self_correction") = false := by
    rw [selector_falsy _ htr]
    decide
  have hrun : sqlLoopRun attempts fixes (2 * K + 1) (initLoopState s0)
      = ⟨SqlNode.summarization, K + 1, K,
          query_execution_node st (attempts K)⟩ := by
    rw [sqlLoopRun_add attempts fixes (2 * K) 1, hst]
    have e1 : sqlLoopRun attempts fixes 1 ⟨SqlNode.query_execution, K, K, st⟩
        = sqlLoopStep attempts fixes ⟨SqlNode.query_execution, K, K, st⟩ :=
      rfl
    rw [e1]
    simp [sqlLoopStep, hcond]
  rw [hrun]
  refine ⟨rfl, rfl, rfl, rfl, hsucc, ?_⟩
  intro m hm
  exact sqlLoop_stays_in_cycle attempts fixes s0 m K hm hfail

/-- Witness for the amended C1: with a failing first attempt and a
successful second one (N = 2), three machine steps enter summarization
with two executions, one correction and a null error, and summarization
is not yet reached after one step. -/
theorem selfcorrection_convergence_witness :
    (sqlLoopRun attemptsSecondOk fixesConst 3 (initLoopState baseState)).node
      = SqlNode.summarization
    ∧ (sqlLoopRun attemptsSecondOk fixesConst 3
        (initLoopState baseState)).execs = 2
    ∧ (sqlLoopRun attemptsSecondOk fixesConst 3
        (initLoopState baseState)).corrs = 1
    ∧ (sqlLoopRun attemptsSecondOk fixesConst 3
        (initLoopState baseState)).state.sql_error = none
    ∧ (sqlLoopRun attemptsSecondOk fixesConst 1
        (initLoopState baseState)).node ≠ SqlNode.summarization := by
  have h := selfcorrection_convergence attemptsSecondOk fixesConst baseState 2
    (by omega) (by decide)
    (fun i hi => by
      have h0 : i = 0 := by omega
      subst h0
      decide)
  refine ⟨h.1, h.2.1, h.2.2.1, ?_, h.2.2.2.2.2 1 (by omega)⟩
  exact (h.2.2.2.1).trans (by decide)

/-- C3 counterexample: with every attempt failing with the empty-string
error (non-null), the loop nevertheless terminates — it enters
summarization after the first execution — although no attempt ever
yielded a null `sql_error`. -/
theorem selfcorrection_termination_null_counterexample :
    (attemptsAllEmptyErr 0).sql_error ≠ none
    ∧ (sqlLoopRun attemptsAllEmptyErr fixesConst 1
        (initLoopState baseState)).node = SqlNode.summarization := by
  exact ⟨by decide, by decide⟩

/-- C3 (amended): the cycle carries no retry counter: after every
`self_correction` step control returns unconditionally to
`query_execution`, and the loop leaves for summarization exactly when an
attempt yields a falsy (null or empty) `sql_error`; when every attempt
carries a truthy error the loop never reaches summarization, however many
steps are taken. -/
theorem selfcorrection_loop_unbounded (attempts : Nat → SqlToolResult)
    (fixes : Nat → String) (s0 : AgentState)
    (hfail : ∀ i, truthyStr (attempts i).sql_error = true) :
    (∀ ls : LoopState, ls.node = SqlNode.self_correction →
        (sqlLoopStep attempts fixes ls).node = SqlNode.query_execution)
    ∧ ∀ n, (sqlLoopRun attempts fixes n (initLoopState s0)).node
        ≠ SqlNode.summarization := by
  constructor
  · rintro ⟨node, e, c, st⟩ h
    cases node with
    | query_execution => simp at h
    | self_correction => rfl
    | summarization => simp at h
  · intro n
    exact sqlLoop_stays_in_cycle attempts fixes s0 n n (by omega)
      (fun i _ => hfail i)

/-- Witness for the amended C3: with every attempt failing, a correction
configuration steps back to execution, and after seven steps the machine
still has not reached summarization. -/
theorem selfcorrection_loop_unbounded_witness :
    (sqlLoopStep attemptsAllFail fixesConst
        ⟨SqlNode.self_correction, 1, 0, baseState⟩).node
      = SqlNode.query_execution
    ∧ (sqlLoopRun attemptsAllFail fixesConst 7
        (initLoopState baseState)).node ≠ SqlNode.summarization := by
  have h := selfcorrection_loop_unbounded attemptsAllFail fixesConst baseState
    (fun i => rfl)
  exact ⟨h.1 ⟨SqlNode.self_correction, 1, 0, baseState⟩ rfl, h.2 7⟩

/-- Witness for the amended C7 at a concrete history and data set. -/
theorem malformed_output_degrades_witness :
    curate_memory_node [("human", "hi")] CurationResponse.unparsable = []
    ∧ (plan_visualizations [[("a", "1")]] VizResponse.invalidStructure).plan
      = none := by
  have h := malformed_output_degrades_curation_and_viz [("human", "hi")]
    [[("a", "1")]]
  exact ⟨h.1, h.2.2.2.1⟩

/-- Witness for C9 at a concrete query and a failing database. -/
theorem execute_sql_query_invariant_witness :
    ((execute_sql_query (some "SELECT 1")
        (fun _ => DbOutcome.psycopgError "relation x missing")).query_result).isNone
      = ((execute_sql_query (some "SELECT 1")
        (fun _ => DbOutcome.psycopgError "relation x missing")).sql_error).isSome := by
  exact execute_sql_query_invariant (some "SELECT 1")
    (fun _ => DbOutcome.psycopgError "relation x missing")

/-- Witness for C10 at a concrete state carrying facts to save. -/
theorem save_memory_empty_update_witness :
    (save_memory_node { baseState with facts_to_save := some ["fact"] }).1
      = emptyUpdate := by
  exact (save_memory_empty_update
    { baseState with facts_to_save := some ["fact"] }).1
